import Mathlib

/-!
# Verification of `src/compiler/performance.ts` (namespace `ts.performance`)

A shallow embedding of the compiler performance-measurement facility.

The TypeScript module holds process-wide mutable state (the `enabled` flag,
`profilerStart`, the three string-keyed number maps `counts`, `marks`,
`measures`, plus `logDepth` and `isFirstLogEvent`).  We model that state as an
explicit `PerfState` record threaded through every operation.

Modelling decisions, in one place:

* JS numbers are modelled as `ℚ` (the claims are about exact arithmetic and
  comparisons such as `10.01 > 10`, not about binary floating point rounding).
* `Map<number>` is a string-keyed insertion-ordered map; we model it as an
  association list with unique keys, `mapSet` updating in place exactly like
  `Map.prototype.set`.
* The three maps are declared (`let counts: Map<number>;`) but only
  initialised by `enable()`; before that they are `undefined`.  We model each
  as `Option TSMap`, `none` being `undefined`.  An operation that dereferences
  an `undefined` map (a JS `TypeError`) returns `Except.error Fault.typeError`;
  a `Debug.fail` throw returns `Except.error (Fault.assertionFailure msg)`.
* Calls to the ambient clock (`timestamp()`, `Date.now()`) and to
  `Math.random()` are modelled by passing the value each call would return as
  an explicit argument.
* Observable output (the `profilerEvent` host hook call inside `mark`, and the
  `console.log` lines of `logTraceEvent`) is modelled as a list of `Effect`
  values returned alongside the new state.
* JS truthiness on numbers matters in this code: `x || y` with `x : number`
  yields `y` when `x` is `0`.  The helpers `jsOrZero` and `jsStrAndGetOr`
  transcribe the exact `&&`/`||` chains from the source.
-/

namespace ts.performance

/-- A string-keyed number map (`Map<number>` in the source): an association
list in insertion order, one entry per key. -/
abbrev TSMap := List (String × ℚ)

/-- Embeds `m.get(k)`: the value stored under `k`, if any. -/
def mapGet : TSMap → String → Option ℚ
  | [], _ => none
  | (k, v) :: rest, k' => if k' = k then some v else mapGet rest k'

/-- Embeds `m.set(k, v)`: update the entry for `k` in place if present (keeping its
position, as `Map.prototype.set` does), else append a new entry. -/
def mapSet : TSMap → String → ℚ → TSMap
  | [], k, v => [(k, v)]
  | (k', v') :: rest, k, v =>
      if k' = k then (k, v) :: rest else (k', v') :: mapSet rest k v

/-- The JS expression `o || 0` where `o` is `m.get(k)` (possibly `undefined`):
`undefined` and `0` are falsy, so both yield `0`. -/
def jsOrZero : Option ℚ → ℚ
  | none => 0
  | some v => if v = 0 then 0 else v

/-- The JS expression `name && m.get(name) || fallback` for an optional string
`name`: an absent or empty name is falsy, a missing entry is `undefined`
(falsy), and a stored timestamp of `0` is also falsy; in each of those cases
the `||` takes the fallback. -/
def jsStrAndGetOr (name : Option String) (m : TSMap) (fallback : ℚ) : ℚ :=
  match name with
  | none => fallback
  | some n =>
      if n = "" then fallback
      else
        match mapGet m n with
        | none => fallback
        | some t => if t = 0 then fallback else t

/-- A failure: either a `Debug.fail` assertion throw with its message, or a JS
`TypeError` from dereferencing an `undefined` map. -/
inductive Fault where
  | assertionFailure (msg : String)
  | typeError
deriving DecidableEq

/-- The object passed to `logTraceEvent` by `logCompleteEvent`:
`{name, cat, ph, pid, tid, ts, dur, args?}`.  `args` is kept abstract as an
optional serialized blob; per `...(args && { args })` it is present in the
record exactly when an argument object was supplied. -/
structure TraceRecord where
  name : String
  cat : String
  ph : String
  pid : ℕ
  tid : ℤ
  ts : ℚ
  dur : ℚ
  args : Option String
deriving DecidableEq

/-- An observable side effect of an operation. `openBracket` is the
`console.log("[")` line; `record r` is the `console.log("  " + JSON.stringify(r) + ",")`
line, i.e. the serialized record on its own line with a trailing comma;
`profilerEvent n` is the call to the host profiler hook dispatcher. -/
inductive Effect where
  | profilerEvent (markName : String)
  | openBracket
  | record (r : TraceRecord)
deriving DecidableEq

/-- The module-level mutable state of `ts.performance`. -/
structure PerfState where
  enabled : Bool
  profilerStart : ℚ
  counts : Option TSMap
  marks : Option TSMap
  measures : Option TSMap
  logDepth : ℤ
  isFirstLogEvent : Bool
deriving DecidableEq

/-- The state at module load:
`enabled = false`, `profilerStart = 0`, the three maps undefined,
`logDepth = 0`, `isFirstLogEvent = true`. -/
def initialState : PerfState :=
  { enabled := false
    profilerStart := 0
    counts := none
    marks := none
    measures := none
    logDepth := 0
    isFirstLogEvent := true }

/-- Embeds `mark(markName)`: when enabled, records `markName → timestamp()` in
`marks`, increments `counts[markName]` (from 0 if unseen), and calls the
`profilerEvent` dispatcher; when disabled, does nothing at all.  `now` is the
value `timestamp()` returns for this call. -/
def mark (markName : String) (now : ℚ) (s : PerfState) :
    Except Fault (PerfState × List Effect) :=
  if s.enabled then
    match s.marks, s.counts with
    | some ms, some cs =>
        .ok ({ s with
                marks := some (mapSet ms markName now)
                counts := some (mapSet cs markName (jsOrZero (mapGet cs markName) + 1)) },
             [Effect.profilerEvent markName])
    | _, _ => .error Fault.typeError
  else
    .ok (s, [])

/-- Embeds `logTraceEvent(data)`: on the first call of the process, emits the opening
bracket line before the record line and clears `isFirstLogEvent`; every call
emits the serialized record line with its trailing comma. -/
def logTraceEvent (data : TraceRecord) (s : PerfState) : PerfState × List Effect :=
  if s.isFirstLogEvent then
    ({ s with isFirstLogEvent := false }, [Effect.openBracket, Effect.record data])
  else
    (s, [Effect.record data])

/-- Embeds `logCompleteEvent(name, durationMillis, args?)`: builds the complete-event
record (`cat: "build"`, `ph: "X"`, `pid: 1`, `tid: logDepth`,
`ts = (Date.now() - durationMillis) * 1000`, `dur = durationMillis * 1000`,
`args` only if supplied) and hands it to `logTraceEvent`.  `dateNow` is the
value `Date.now()` returns for this call. -/
def logCompleteEvent (name : String) (durationMillis : ℚ) (args : Option String)
    (dateNow : ℚ) (s : PerfState) : PerfState × List Effect :=
  logTraceEvent
    { name := name
      cat := "build"
      ph := "X"
      pid := 1
      tid := s.logDepth
      ts := (dateNow - durationMillis) * 1000
      dur := durationMillis * 1000
      args := args } s

/-- Embeds `logSlowEvent(name, durationMillis, args?)`: calls `logCompleteEvent` only
when `durationMillis > 10`, with the name suffixed by
`Math.floor(Math.random() * 10000)`.  `random` is the value `Math.random()`
returns for this call. -/
def logSlowEvent (name : String) (durationMillis : ℚ) (args : Option String)
    (random : ℚ) (dateNow : ℚ) (s : PerfState) : PerfState × List Effect :=
  if durationMillis > 10 then
    logCompleteEvent (name ++ "-" ++ toString ⌊random * 10000⌋) durationMillis args dateNow s
  else
    (s, [])

/-- Embeds `measure(measureName, startMarkName?, endMarkName?)`: when enabled,
resolves `end = endMarkName && marks.get(endMarkName) || timestamp()` and
`start = startMarkName && marks.get(startMarkName) || profilerStart`, adds
`end - start` to `measures[measureName]` (from 0 if unseen) and triggers
`logSlowEvent`; when disabled, does nothing. -/
def measure (measureName : String) (startMarkName endMarkName : Option String)
    (now random dateNow : ℚ) (s : PerfState) :
    Except Fault (PerfState × List Effect) :=
  if s.enabled then
    match s.marks, s.measures with
    | some ms, some es =>
        let endT := jsStrAndGetOr endMarkName ms now
        let startT := jsStrAndGetOr startMarkName ms s.profilerStart
        let es2 := mapSet es measureName (jsOrZero (mapGet es measureName) + (endT - startT))
        let p := logSlowEvent measureName (endT - startT) none random dateNow
          { s with measures := some es2 }
        .ok p
    | _, _ => .error Fault.typeError
  else
    .ok (s, [])

/-- Embeds `getCount(markName)`: `counts && counts.get(markName) || 0`. -/
def getCount (markName : String) (s : PerfState) : ℚ :=
  match s.counts with
  | none => 0
  | some cs => jsOrZero (mapGet cs markName)

/-- Embeds `getDuration(measureName)`: `measures && measures.get(measureName) || 0`. -/
def getDuration (measureName : String) (s : PerfState) : ℚ :=
  match s.measures with
  | none => 0
  | some es => jsOrZero (mapGet es measureName)

/-- Embeds `forEachMeasure(cb)`: iterates `measures.forEach(...)`, invoking the
callback once per entry in insertion order; we return the list of
`(name, duration)` pairs the callback is invoked on.  With `measures` still
`undefined` (never enabled) the dereference throws a `TypeError`. -/
def forEachMeasure (s : PerfState) : Except Fault (List (String × ℚ)) :=
  match s.measures with
  | none => .error Fault.typeError
  | some es => .ok es

/-- Embeds `enable()`: creates three fresh empty maps, sets `enabled` and records
`profilerStart = timestamp()`. -/
def enable (now : ℚ) (s : PerfState) : PerfState :=
  { s with
      counts := some []
      marks := some []
      measures := some []
      enabled := true
      profilerStart := now }

/-- Embeds `disable()`: clears the `enabled` flag, keeping all data. -/
def disable (s : PerfState) : PerfState :=
  { s with enabled := false }

/-- Embeds `increaseLogDepth()`. -/
def increaseLogDepth (s : PerfState) : PerfState :=
  { s with logDepth := s.logDepth + 1 }

/-- Embeds `decreaseLogDepth()`. -/
def decreaseLogDepth (s : PerfState) : PerfState :=
  { s with logDepth := s.logDepth - 1 }

/-- A `Timer` value: either a timer from `createTimer` carrying its captured
triple and its mutable `enterCount`, or the shared `nullTimer`. -/
inductive Timer where
  | real (measureName startMarkName endMarkName : String) (enterCount : ℤ)
  | null
deriving DecidableEq

/-- Embeds `createTimer(measureName, startMarkName, endMarkName)`: a fresh timer with
`enterCount = 0`. -/
def createTimer (measureName startMarkName endMarkName : String) : Timer :=
  Timer.real measureName startMarkName endMarkName 0

/-- Embeds `nullTimer`: the shared no-op timer (`{ enter: noop, exit: noop }`). -/
def nullTimer : Timer := Timer.null

/-- Embeds `createTimerIf(condition, ...)`. -/
def createTimerIf (condition : Bool) (measureName startMarkName endMarkName : String) :
    Timer :=
  if condition then createTimer measureName startMarkName endMarkName else nullTimer

/-- Embeds `timer.enter()`: `if (++enterCount === 1) mark(startMarkName)`.  Returns
the timer with its updated count, the new facility state and the effects. -/
def Timer.enter (t : Timer) (now : ℚ) (s : PerfState) :
    Except Fault (Timer × PerfState × List Effect) :=
  match t with
  | Timer.null => .ok (Timer.null, s, [])
  | Timer.real m sm em c =>
      if c + 1 = 1 then
        match mark sm now s with
        | .ok (s', eff) => .ok (Timer.real m sm em (c + 1), s', eff)
        | .error f => .error f
      else
        .ok (Timer.real m sm em (c + 1), s, [])

/-- Embeds `timer.exit()`: `--enterCount`; on reaching 0, `mark(endMarkName)` then
`measure(measureName, startMarkName, endMarkName)`; below 0,
`Debug.fail("enter/exit count does not match.")`.  `nowMark` and `nowMeasure`
are the values of the two potential `timestamp()` calls, `random` and
`dateNow` feed the `logSlowEvent` path inside `measure`. -/
def Timer.exit (t : Timer) (nowMark nowMeasure random dateNow : ℚ) (s : PerfState) :
    Except Fault (Timer × PerfState × List Effect) :=
  match t with
  | Timer.null => .ok (Timer.null, s, [])
  | Timer.real m sm em c =>
      if c - 1 = 0 then
        match mark em nowMark s with
        | .error f => .error f
        | .ok (s1, eff1) =>
            match measure m (some sm) (some em) nowMeasure random dateNow s1 with
            | .error f => .error f
            | .ok (s2, eff2) => .ok (Timer.real m sm em (c - 1), s2, eff1 ++ eff2)
      else if c - 1 < 0 then
        .error (Fault.assertionFailure "enter/exit count does not match.")
      else
        .ok (Timer.real m sm em (c - 1), s, [])

/-- One call on a timer, with the ambient values the call consumes. -/
inductive TimerOp where
  | enterOp (now : ℚ)
  | exitOp (nowMark nowMeasure random dateNow : ℚ)

/-- Run a sequence of `enter`/`exit` calls on a timer, accumulating effects;
stops at the first fault, as a thrown exception would. -/
def runTimerOps : List TimerOp → Timer → PerfState →
    Except Fault (Timer × PerfState × List Effect)
  | [], t, s => .ok (t, s, [])
  | op :: rest, t, s =>
      let step :=
        match op with
        | TimerOp.enterOp now => t.enter now s
        | TimerOp.exitOp a b r d => t.exit a b r d s
      match step with
      | .error f => .error f
      | .ok (t', s', eff) =>
          match runTimerOps rest t' s' with
          | .error f => .error f
          | .ok (t'', s'', eff') => .ok (t'', s'', eff ++ eff')

/-! ## Basic map lemmas -/

theorem mapGet_mapSet_self (m : TSMap) (k : String) (v : ℚ) :
    mapGet (mapSet m k v) k = some v := by
  induction m with
  | nil => simp [mapGet, mapSet]
  | cons p rest ih =>
      obtain ⟨k', v'⟩ := p
      by_cases h : k' = k
      · subst h; simp [mapGet, mapSet]
      · simp [mapGet, mapSet, h, Ne.symm h, ih]

theorem mapGet_mapSet_ne (m : TSMap) (k k' : String) (v : ℚ) (h : k' ≠ k) :
    mapGet (mapSet m k v) k' = mapGet m k' := by
  induction m with
  | nil => simp [mapGet, mapSet, h]
  | cons p rest ih =>
      obtain ⟨k0, v0⟩ := p
      by_cases h0 : k0 = k
      · subst h0; simp [mapGet, mapSet, h]
      · by_cases h1 : k' = k0 <;> simp [mapGet, mapSet, h0, h1, ih]

theorem jsOrZero_some (v : ℚ) : jsOrZero (some v) = v := by
  by_cases h : v = 0 <;> simp [jsOrZero, h]

theorem jsOrZero_eq_getD (o : Option ℚ) : jsOrZero o = o.getD 0 := by
  cases o with
  | none => rfl
  | some v => simpa using jsOrZero_some v

/-- A key present after `mapSet` was already present or is the key set. -/
theorem mem_keys_mapSet (m : TSMap) (k a : String) (v : ℚ)
    (hmem : a ∈ (mapSet m k v).map Prod.fst) : a ∈ m.map Prod.fst ∨ a = k := by
  induction m with
  | nil =>
      simp [mapSet] at hmem
      exact Or.inr hmem
  | cons p rest ih =>
      obtain ⟨k0, v0⟩ := p
      by_cases h0 : k0 = k
      · subst h0
        rw [show mapSet ((k0, v0) :: rest) k0 v = (k0, v) :: rest by simp [mapSet]] at hmem
        simp only [List.map_cons, List.mem_cons] at hmem
        rcases hmem with h1 | h1
        · exact Or.inr h1
        · exact Or.inl (by simp [h1])
      · simp only [mapSet, if_neg h0, List.map_cons, List.mem_cons] at hmem
        rcases hmem with h1 | h1
        · exact Or.inl (by simp [h1])
        · rcases ih h1 with h2 | h2
          · exact Or.inl (by simp [h2])
          · exact Or.inr h2

/-- Keys of a map stay duplicate-free under `mapSet`. -/
theorem mapSet_keys_nodup (m : TSMap) (k : String) (v : ℚ)
    (h : (m.map Prod.fst).Nodup) : ((mapSet m k v).map Prod.fst).Nodup := by
  induction m with
  | nil => simp [mapSet]
  | cons p rest ih =>
      obtain ⟨k0, v0⟩ := p
      simp only [List.map_cons, List.nodup_cons] at h
      by_cases h0 : k0 = k
      · subst h0
        rw [show mapSet ((k0, v0) :: rest) k0 v = (k0, v) :: rest by simp [mapSet]]
        simp only [List.map_cons, List.nodup_cons]
        exact h
      · rw [show mapSet ((k0, v0) :: rest) k v = (k0, v0) :: mapSet rest k v by
          simp [mapSet, h0]]
        simp only [List.map_cons, List.nodup_cons]
        refine ⟨fun hmem => ?_, ih h.2⟩
        rcases mem_keys_mapSet rest k k0 v hmem with h1 | h1
        · exact h.1 h1
        · exact h0 h1

/-! ## Operation-level lemmas -/

theorem mark_enabled (markName : String) (now : ℚ) (s : PerfState) (ms cs : TSMap)
    (he : s.enabled = true) (hms : s.marks = some ms) (hcs : s.counts = some cs) :
    mark markName now s =
      .ok ({ s with
              marks := some (mapSet ms markName now)
              counts := some (mapSet cs markName (jsOrZero (mapGet cs markName) + 1)) },
           [Effect.profilerEvent markName]) := by
  simp [mark, he, hms, hcs]

theorem measure_enabled (measureName : String) (smn emn : Option String)
    (now random dateNow : ℚ) (s : PerfState) (ms es : TSMap)
    (he : s.enabled = true) (hms : s.marks = some ms) (hes : s.measures = some es) :
    measure measureName smn emn now random dateNow s =
      .ok (logSlowEvent measureName
            (jsStrAndGetOr emn ms now - jsStrAndGetOr smn ms s.profilerStart)
            none random dateNow
            { s with measures := some (mapSet es measureName
                (jsOrZero (mapGet es measureName) +
                  (jsStrAndGetOr emn ms now - jsStrAndGetOr smn ms s.profilerStart))) }) := by
  simp [measure, he, hms, hes]

/-- The helper `logSlowEvent` touches only `isFirstLogEvent`: every measurement-carrying
field of the state survives it unchanged. -/
theorem logSlowEvent_preserves (name : String) (dm : ℚ) (args : Option String)
    (r dn : ℚ) (s : PerfState) :
    (logSlowEvent name dm args r dn s).1.enabled = s.enabled ∧
    (logSlowEvent name dm args r dn s).1.profilerStart = s.profilerStart ∧
    (logSlowEvent name dm args r dn s).1.counts = s.counts ∧
    (logSlowEvent name dm args r dn s).1.marks = s.marks ∧
    (logSlowEvent name dm args r dn s).1.measures = s.measures ∧
    (logSlowEvent name dm args r dn s).1.logDepth = s.logDepth := by
  by_cases h : dm > 10 <;> by_cases h2 : s.isFirstLogEvent <;>
    simp [logSlowEvent, logCompleteEvent, logTraceEvent, h, h2]

theorem getDuration_eq (s : PerfState) (es : TSMap) (n : String)
    (h : s.measures = some es) : getDuration n s = jsOrZero (mapGet es n) := by
  simp [getDuration, h]

theorem getCount_eq (s : PerfState) (cs : TSMap) (n : String)
    (h : s.counts = some cs) : getCount n s = jsOrZero (mapGet cs n) := by
  simp [getCount, h]

theorem mark_error_eq (markName : String) (now : ℚ) (s : PerfState) (f : Fault)
    (h : mark markName now s = .error f) : f = Fault.typeError := by
  cases he : s.enabled <;>
    rcases hms : s.marks with _ | ms <;> rcases hcs : s.counts with _ | cs <;>
    simp [mark, he, hms, hcs] at h <;> exact h.symm

theorem measure_error_eq (measureName : String) (smn emn : Option String)
    (now random dateNow : ℚ) (s : PerfState) (f : Fault)
    (h : measure measureName smn emn now random dateNow s = .error f) :
    f = Fault.typeError := by
  cases he : s.enabled <;>
    rcases hms : s.marks with _ | ms <;> rcases hes : s.measures with _ | es <;>
    simp [measure, he, hms, hes] at h <;> exact h.symm

/-! ## Claim theorems -/

/-- Claim C5: calling `mark` while the facility is disabled changes nothing:
the returned state is the input state (so marks, counts and measures — hence
`getCount` and every timestamp — are unchanged) and the effect list is empty,
so the external profiler hook is not invoked. -/
theorem c5_mark_disabled_noop (name : String) (now : ℚ) (s : PerfState)
    (h : s.enabled = false) :
    mark name now s = .ok (s, []) := by
  simp [mark, h]

/-- Witness for C5 at a concrete disabled state. -/
theorem c5_mark_disabled_noop_witness :
    mark "a" 3 (disable (enable 2 initialState)) =
      .ok (disable (enable 2 initialState), []) :=
  c5_mark_disabled_noop "a" 3 (disable (enable 2 initialState)) rfl

/-- Claim C6: `enable` discards all prior data: afterwards every mark count
and every measure duration reads 0, the three maps are fresh and empty,
`enabled` is set, and `profilerStart` is the current time — regardless of what
was recorded before. -/
theorem c6_enable_resets (s : PerfState) (now : ℚ) (m n : String) :
    getCount m (enable now s) = 0 ∧
    getDuration n (enable now s) = 0 ∧
    (enable now s).enabled = true ∧
    (enable now s).profilerStart = now ∧
    (enable now s).counts = some [] ∧
    (enable now s).marks = some [] ∧
    (enable now s).measures = some [] := by
  simp [enable, getCount, getDuration, mapGet, jsOrZero]

/-- Claim C8: `logTraceEvent` framing: on the first call of the process the
opening bracket line is emitted immediately before the record line and the
first-event flag is cleared; on every later call only the record line (the
serialized record with its trailing comma) is emitted; after any call the flag
is false, so an immediately following call emits no opening bracket; and every
emitted line is either the opening bracket or a record line — never a closing
bracket. -/
theorem c8_logTraceEvent_framing (data : TraceRecord) (s : PerfState) :
    (s.isFirstLogEvent = true →
      logTraceEvent data s =
        ({ s with isFirstLogEvent := false },
         [Effect.openBracket, Effect.record data])) ∧
    (s.isFirstLogEvent = false →
      logTraceEvent data s = (s, [Effect.record data])) ∧
    (logTraceEvent data s).1.isFirstLogEvent = false ∧
    (∀ e ∈ (logTraceEvent data s).2, e = Effect.openBracket ∨ e = Effect.record data) ∧
    (∀ data2, Effect.openBracket ∉ (logTraceEvent data2 (logTraceEvent data s).1).2) := by
  by_cases h : s.isFirstLogEvent <;>
    simp [logTraceEvent, h]

/-- Witness for C8 at a concrete first call. -/
theorem c8_logTraceEvent_framing_witness :
    logTraceEvent
        { name := "n", cat := "build", ph := "X", pid := 1, tid := 0,
          ts := 0, dur := 0, args := none } initialState =
      ({ initialState with isFirstLogEvent := false },
       [Effect.openBracket,
        Effect.record
          { name := "n", cat := "build", ph := "X", pid := 1, tid := 0,
            ts := 0, dur := 0, args := none }]) :=
  (c8_logTraceEvent_framing
      { name := "n", cat := "build", ph := "X", pid := 1, tid := 0,
        ts := 0, dur := 0, args := none } initialState).1 rfl

/-- Claim C9: `createTimerIf false …` returns the shared `nullTimer`, and any
sequence of `enter`/`exit` calls on `nullTimer`, from any facility state,
leaves the state untouched, produces no effects, and never faults — in
particular `exit` never raises the enter/exit-mismatch assertion. -/
theorem c9_createTimerIf_false_null (m sm em : String) (ops : List TimerOp)
    (s : PerfState) :
    createTimerIf false m sm em = nullTimer ∧
    runTimerOps ops nullTimer s = .ok (nullTimer, s, []) := by
  refine ⟨rfl, ?_⟩
  induction ops with
  | nil => rfl
  | cons op rest ih =>
      cases op <;> simp [runTimerOps, Timer.enter, Timer.exit, nullTimer] at ih ⊢ <;>
        simp [ih]

/-- Claim C7: `logSlowEvent` emits a trace event iff `durationMillis > 10`
(strictly): at or below 10 the state is untouched and nothing is emitted;
above 10 exactly one record line is emitted (preceded by the opening bracket
line on the very first log call of the process), and its event name is the
given name suffixed with `-⌊random * 10000⌋`, an integer in `[0, 10000)`. -/
theorem c7_logSlowEvent_threshold (name : String) (dm : ℚ) (args : Option String)
    (r dn : ℚ) (s : PerfState) (hr0 : 0 ≤ r) (hr1 : r < 1) :
    (dm ≤ 10 → logSlowEvent name dm args r dn s = (s, [])) ∧
    (10 < dm → ∃ rec : TraceRecord,
      ((logSlowEvent name dm args r dn s).2 = [Effect.record rec] ∨
       (logSlowEvent name dm args r dn s).2 =
         [Effect.openBracket, Effect.record rec]) ∧
      rec.name = name ++ "-" ++ toString ⌊r * 10000⌋ ∧
      0 ≤ ⌊r * 10000⌋ ∧ ⌊r * 10000⌋ < 10000) := by
  constructor
  · intro h
    simp [logSlowEvent, not_lt.mpr h]
  · intro h
    refine ⟨{ name := name ++ "-" ++ toString ⌊r * 10000⌋, cat := "build", ph := "X",
              pid := 1, tid := s.logDepth, ts := (dn - dm) * 1000, dur := dm * 1000,
              args := args }, ?_, rfl, ?_, ?_⟩
    · by_cases h2 : s.isFirstLogEvent <;>
        simp [logSlowEvent, logCompleteEvent, logTraceEvent, h, h2]
    · exact Int.le_floor.mpr (by push_cast; nlinarith)
    · exact Int.floor_lt.mpr (by push_cast; nlinarith)

/-- Witness for C7, in particular at the spec's boundary values 10 and 10.01:
with `durationMillis = 10` nothing is emitted, with `10.01` a record line is
emitted with an in-range suffix. -/
theorem c7_logSlowEvent_threshold_witness :
    ((10 : ℚ) ≤ 10 → logSlowEvent "check" 10 none (1/2) 0 initialState =
      (initialState, [])) ∧
    ((10 : ℚ) < 1001/100 → ∃ rec : TraceRecord,
      ((logSlowEvent "check" (1001/100) none (1/2) 0 initialState).2 =
         [Effect.record rec] ∨
       (logSlowEvent "check" (1001/100) none (1/2) 0 initialState).2 =
         [Effect.openBracket, Effect.record rec]) ∧
      rec.name = "check" ++ "-" ++ toString ⌊(1/2 : ℚ) * 10000⌋ ∧
      0 ≤ ⌊(1/2 : ℚ) * 10000⌋ ∧ ⌊(1/2 : ℚ) * 10000⌋ < 10000) :=
  ⟨(c7_logSlowEvent_threshold "check" 10 none (1/2) 0 initialState
      (by norm_num) (by norm_num)).1,
   (c7_logSlowEvent_threshold "check" (1001/100) none (1/2) 0 initialState
      (by norm_num) (by norm_num)).2⟩

/-- Claim C2: `exit` on a timer whose enter count is 0 (or already negative,
i.e. exits outnumbering enters) drives the counter below 0 and fails with the
fatal assertion `Debug.fail("enter/exit count does not match.")`, modelled as
a non-recoverable `Fault.assertionFailure` carrying that diagnostic — not an
error value and not a clamped counter; and whenever the count is at least 1
(exits do not outnumber enters) the assertion branch is unreachable: no call
to `exit` can produce an `assertionFailure`. -/
theorem c2_exit_underflow_asserts (m sm em : String) (c : ℤ) (a b r d : ℚ)
    (s : PerfState) :
    (c ≤ 0 → Timer.exit (Timer.real m sm em c) a b r d s =
      .error (Fault.assertionFailure "enter/exit count does not match.")) ∧
    (1 ≤ c → ∀ msg, Timer.exit (Timer.real m sm em c) a b r d s ≠
      .error (Fault.assertionFailure msg)) := by
  constructor
  · intro h
    have h1 : ¬(c - 1 = 0) := by omega
    have h2 : c - 1 < 0 := by omega
    simp [Timer.exit, h1, h2]
  · intro h msg
    by_cases hc : c = 1
    · subst hc
      rcases hmk : mark em a s with f | p
      · have := mark_error_eq em a s f hmk
        subst this
        simp [Timer.exit, hmk]
      · obtain ⟨s1, eff1⟩ := p
        rcases hme : measure m (some sm) (some em) b r d s1 with f | q
        · have := measure_error_eq m (some sm) (some em) b r d s1 f hme
          subst this
          simp [Timer.exit, hmk, hme]
        · obtain ⟨s2, eff2⟩ := q
          simp [Timer.exit, hmk, hme]
    · have h1 : ¬(c - 1 = 0) := by omega
      have h2 : ¬(c - 1 < 0) := by omega
      simp [Timer.exit, h1, h2]

/-- Witness for C2: a fresh timer (count 0) whose `exit` is called without a
prior `enter` fails with the diagnostic, and a timer with count 1 never
produces the assertion. -/
theorem c2_exit_underflow_asserts_witness :
    (Timer.exit (Timer.real "m" "s" "e" 0) 1 2 0 0 initialState =
      .error (Fault.assertionFailure "enter/exit count does not match.")) ∧
    (∀ msg, Timer.exit (Timer.real "m" "s" "e" 1) 1 2 0 0 initialState ≠
      .error (Fault.assertionFailure msg)) :=
  ⟨(c2_exit_underflow_asserts "m" "s" "e" 0 1 2 0 0 initialState).1 (by norm_num),
   (c2_exit_underflow_asserts "m" "s" "e" 1 1 2 0 0 initialState).2 (by norm_num)⟩

/-- Claim C1: timer marks fire only on boundary transitions: `enter` from any
nonzero count is a pure counter increment (state and output untouched);
`enter` from count 0 is exactly `mark(startMarkName)`; `exit` from a count of
at least 2 is a pure counter decrement; `exit` from count 1 records
`mark(endMarkName)` and then `measure(measureName, startMarkName, endMarkName)`
on the marked state, in that order; consequently `enter(); enter(); exit()` on
a fresh timer in an enabled facility leaves the end-mark count, the measure
duration and the measures map exactly as after the initial start mark — no end
mark and no measure recorded, counter still 1 > 0 — and the next `exit()` (by
the count-1 case) records both. -/
theorem c1_timer_boundary_transitions (m sm em : String) (c : ℤ)
    (now a2 a b r d : ℚ) (s : PerfState) (ms0 cs0 : TSMap) :
    (c ≠ 0 → Timer.enter (Timer.real m sm em c) now s =
      .ok (Timer.real m sm em (c + 1), s, [])) ∧
    (Timer.enter (Timer.real m sm em 0) now s =
      (mark sm now s).map fun p => (Timer.real m sm em 1, p)) ∧
    (2 ≤ c → Timer.exit (Timer.real m sm em c) a b r d s =
      .ok (Timer.real m sm em (c - 1), s, [])) ∧
    (∀ s1 eff1, mark em a s = .ok (s1, eff1) →
      ∀ s2 eff2, measure m (some sm) (some em) b r d s1 = .ok (s2, eff2) →
      Timer.exit (Timer.real m sm em 1) a b r d s =
        .ok (Timer.real m sm em 0, s2, eff1 ++ eff2)) ∧
    (s.enabled = true → s.marks = some ms0 → s.counts = some cs0 → sm ≠ em →
      ∃ s1 eff1,
        runTimerOps [TimerOp.enterOp now, TimerOp.enterOp a2, TimerOp.exitOp a b r d]
            (createTimer m sm em) s = .ok (Timer.real m sm em 1, s1, eff1) ∧
        getCount em s1 = getCount em s ∧
        getDuration m s1 = getDuration m s ∧
        s1.measures = s.measures) := by
  refine ⟨?_, ?_, ?_, ?_, ?_⟩
  · intro h
    have h1 : ¬(c + 1 = 1) := by omega
    simp [Timer.enter, h1]
  · rcases h : mark sm now s with f | p
    · simp [Timer.enter, h, Except.map]
    · obtain ⟨s1, eff1⟩ := p
      simp [Timer.enter, h, Except.map]
  · intro h
    have h1 : ¬(c - 1 = 0) := by omega
    have h2 : ¬(c - 1 < 0) := by omega
    simp [Timer.exit, h1, h2]
  · intro s1 eff1 h1 s2 eff2 h2
    simp [Timer.exit, h1, h2]
  · intro he hms hcs hne
    have hmk := mark_enabled sm now s ms0 cs0 he hms hcs
    refine ⟨{ s with
               marks := some (mapSet ms0 sm now)
               counts := some (mapSet cs0 sm (jsOrZero (mapGet cs0 sm) + 1)) },
            [Effect.profilerEvent sm], ?_, ?_, ?_, ?_⟩
    · norm_num [runTimerOps, createTimer, Timer.enter, Timer.exit, hmk]
    · rw [getCount_eq _ (mapSet cs0 sm (jsOrZero (mapGet cs0 sm) + 1)) em rfl,
          getCount_eq s cs0 em hcs,
          mapGet_mapSet_ne cs0 sm em _ (Ne.symm hne)]
    · rfl
    · rfl

/-- Witness for C1: the boundary behaviour at a fresh enabled facility with a
timer entered twice, plus a pure increment at count 5. -/
theorem c1_timer_boundary_transitions_witness :
    (Timer.enter (Timer.real "m" "s" "e" 5) 7 initialState =
      .ok (Timer.real "m" "s" "e" 6, initialState, [])) ∧
    (∃ s1 eff1,
      runTimerOps [TimerOp.enterOp 1, TimerOp.enterOp 2, TimerOp.exitOp 3 4 0 0]
          (createTimer "m" "s" "e") (enable 0 initialState) =
        .ok (Timer.real "m" "s" "e" 1, s1, eff1) ∧
      getCount "e" s1 = getCount "e" (enable 0 initialState) ∧
      getDuration "m" s1 = getDuration "m" (enable 0 initialState) ∧
      s1.measures = (enable 0 initialState).measures) :=
  ⟨(c1_timer_boundary_transitions "m" "s" "e" 5 7 2 3 4 0 0 initialState [] []).1
      (by norm_num),
   (c1_timer_boundary_transitions "m" "s" "e" 5 1 2 3 4 0 0
      (enable 0 initialState) [] []).2.2.2.2 rfl rfl rfl (by decide)⟩

/-- Single-call behaviour of `measure` with both mark names absent: any
successful result keeps `enabled`, `marks` and `profilerStart`, and sets the
measure's stored total to its previous value plus `now - profilerStart`. -/
theorem measure_none_none_step (name : String) (now r d : ℚ) (s : PerfState)
    (ms es : TSMap) (he : s.enabled = true) (hms : s.marks = some ms)
    (hes : s.measures = some es) :
    ∀ s1 o1, measure name none none now r d s = .ok (s1, o1) →
      s1.enabled = true ∧ s1.marks = some ms ∧
      s1.profilerStart = s.profilerStart ∧
      s1.measures = some (mapSet es name
        (jsOrZero (mapGet es name) + (now - s.profilerStart))) ∧
      getDuration name s1 = jsOrZero (mapGet es name) + (now - s.profilerStart) := by
  intro s1 o1 h'
  have h1 := measure_enabled name none none now r d s ms es he hms hes
  simp only [jsStrAndGetOr] at h1
  have hX := Except.ok.inj (h1.symm.trans h')
  have hs1 : s1 = (logSlowEvent name (now - s.profilerStart) none r d
      { s with measures := some (mapSet es name
          (jsOrZero (mapGet es name) + (now - s.profilerStart))) }).1 := by
    rw [hX]
  obtain ⟨hAe, hAp, hAc, hAm, hAs, hAd⟩ :=
    logSlowEvent_preserves name (now - s.profilerStart) none r d
      { s with measures := some (mapSet es name
          (jsOrZero (mapGet es name) + (now - s.profilerStart))) }
  refine ⟨?_, ?_, ?_, ?_, ?_⟩
  · rw [hs1, hAe]; exact he
  · rw [hs1, hAm]; exact hms
  · rw [hs1, hAp]
  · rw [hs1, hAs]
  · rw [hs1, getDuration_eq _ _ _ hAs, mapGet_mapSet_self, jsOrZero_some]

/-- Claim C4: `measure` accumulates rather than replaces.  For an unseen
name, two calls (with no mark names, so the deltas are `now1 - profilerStart`
and `now2 - profilerStart`) both succeed and leave `getDuration` equal to the
sum of the two deltas — and not equal to the latest delta whenever the first
delta is nonzero. -/
theorem c4_measure_accumulates (name : String) (now1 now2 r1 r2 d1 d2 : ℚ)
    (s : PerfState) (ms es : TSMap)
    (he : s.enabled = true) (hms : s.marks = some ms) (hes : s.measures = some es)
    (hnew : mapGet es name = none) :
    (∃ p1, measure name none none now1 r1 d1 s = .ok p1) ∧
    (∀ s1 o1, measure name none none now1 r1 d1 s = .ok (s1, o1) →
      getDuration name s1 = now1 - s.profilerStart ∧
      (∃ p2, measure name none none now2 r2 d2 s1 = .ok p2) ∧
      (∀ s2 o2, measure name none none now2 r2 d2 s1 = .ok (s2, o2) →
        getDuration name s2 = (now1 - s.profilerStart) + (now2 - s.profilerStart) ∧
        (now1 - s.profilerStart ≠ 0 →
          getDuration name s2 ≠ now2 - s.profilerStart))) := by
  constructor
  · exact ⟨_, measure_enabled name none none now1 r1 d1 s ms es he hms hes⟩
  · intro s1 o1 h1
    obtain ⟨he1, hms1, hps1, hes1, hd1⟩ :=
      measure_none_none_step name now1 r1 d1 s ms es he hms hes s1 o1 h1
    rw [hnew] at hes1 hd1
    simp only [jsOrZero, zero_add] at hes1 hd1
    refine ⟨hd1, ⟨_, measure_enabled name none none now2 r2 d2 s1 ms _ he1 hms1 hes1⟩, ?_⟩
    intro s2 o2 h2
    obtain ⟨he2, hms2, hps2, hes2, hd2⟩ :=
      measure_none_none_step name now2 r2 d2 s1 ms _ he1 hms1 hes1 s2 o2 h2
    rw [mapGet_mapSet_self, jsOrZero_some, hps1] at hd2
    refine ⟨hd2, ?_⟩
    intro hne
    rw [hd2]
    intro heq
    apply hne
    linarith

/-- Witness for C4 in a freshly enabled facility with `profilerStart = 5`,
measuring an unseen name with deltas 3 and 4. -/
theorem c4_measure_accumulates_witness :
    (∃ p1, measure "n" none none 8 0 0 (enable 5 initialState) = .ok p1) ∧
    (∀ s1 o1, measure "n" none none 8 0 0 (enable 5 initialState) = .ok (s1, o1) →
      getDuration "n" s1 = 8 - (enable 5 initialState).profilerStart ∧
      (∃ p2, measure "n" none none 9 0 0 s1 = .ok p2) ∧
      (∀ s2 o2, measure "n" none none 9 0 0 s1 = .ok (s2, o2) →
        getDuration "n" s2 =
          (8 - (enable 5 initialState).profilerStart) +
            (9 - (enable 5 initialState).profilerStart) ∧
        (8 - (enable 5 initialState).profilerStart ≠ 0 →
          getDuration "n" s2 ≠ 9 - (enable 5 initialState).profilerStart))) :=
  c4_measure_accumulates "n" 8 9 0 0 0 0 (enable 5 initialState) [] []
    rfl rfl rfl rfl

/-- Following the amended spec wording for the timestamp-resolution rule of
`measure`: the recorded timestamp under the given mark name is used whenever
the name was supplied as a nonempty string and its recorded timestamp is
nonzero; in every other case (name absent, empty, unrecorded, or recorded as
exactly 0) the fallback is used.  This definition is written from the amended
specification text, for comparison against `jsStrAndGetOr`, which is written
from the source. -/
def specResolvedTimestamp (name : Option String) (ms : TSMap) (fallback : ℚ) : ℚ :=
  match name with
  | none => fallback
  | some n =>
      match mapGet ms n with
      | none => fallback
      | some t => if n ≠ "" ∧ t ≠ 0 then t else fallback

/-- The source's truthiness chain agrees with the amended resolution rule. -/
theorem jsStrAndGetOr_eq_spec (name : Option String) (ms : TSMap) (fb : ℚ) :
    jsStrAndGetOr name ms fb = specResolvedTimestamp name ms fb := by
  cases name with
  | none => rfl
  | some n =>
      by_cases hn : n = ""
      · subst hn
        rcases hg : mapGet ms "" with _ | t <;>
          simp [jsStrAndGetOr, specResolvedTimestamp, hg]
      · rcases hg : mapGet ms n with _ | t
        · simp [jsStrAndGetOr, specResolvedTimestamp, hg, hn]
        · by_cases ht : t = 0 <;>
            simp [jsStrAndGetOr, specResolvedTimestamp, hg, hn, ht]

/-- An enabled facility whose marks map records `"e"` at timestamp 0 and
whose profiler started at time 5: the input on which the claimed resolution
rule and the code disagree. -/
def c3State : PerfState :=
  { enabled := true
    profilerStart := 5
    counts := some []
    marks := some [("e", 0)]
    measures := some []
    logDepth := 0
    isFirstLogEvent := true }

/-- Counterexample to claim C3 as stated: with the end mark `"e"` supplied and
recorded — at timestamp 0 — and the current time 7, the code resolves the end
timestamp to the current time 7, not to the recorded 0, so the measured delta
is `7 - 5 = 2` where the claim requires `0 - 5 = -5`. -/
theorem c3_counterexample :
    jsStrAndGetOr (some "e") [("e", 0)] 7 = 7 ∧
    (measure "m" none (some "e") 7 0 0 c3State).map
        (fun p => getDuration "m" p.1) = .ok 2 ∧
    (2 : ℚ) ≠ 0 - 5 := by
  refine ⟨by rfl, ?_, by norm_num⟩
  have h := measure_enabled "m" none (some "e") 7 0 0 c3State [("e", 0)] [] rfl rfl rfl
  rw [h]
  simp only [Except.map]
  obtain ⟨hAe, hAp, hAc, hAm, hAs, hAd⟩ :=
    logSlowEvent_preserves "m"
      (jsStrAndGetOr (some "e") [("e", 0)] 7 -
        jsStrAndGetOr none [("e", 0)] c3State.profilerStart)
      none 0 0
      { c3State with measures := some (mapSet [] "m"
          (jsOrZero (mapGet [] "m") +
            (jsStrAndGetOr (some "e") [("e", 0)] 7 -
              jsStrAndGetOr none [("e", 0)] c3State.profilerStart))) }
  rw [getDuration_eq _ _ _ hAs, mapGet_mapSet_self, jsOrZero_some]
  norm_num [jsStrAndGetOr, mapGet, jsOrZero, c3State]

/-- Claim C3 (amended): for every `measure` call on an enabled facility, the
measure's total grows by `end - start` where the end timestamp is the one
recorded under `endMarkName` whenever that name was supplied as a nonempty
string with a recorded nonzero timestamp and the current time otherwise, and
the start timestamp is the one recorded under `startMarkName` under the same
conditions and `profilerStart` otherwise. -/
theorem c3_measure_resolution (measureName : String) (smn emn : Option String)
    (now r d : ℚ) (s : PerfState) (ms es : TSMap)
    (he : s.enabled = true) (hms : s.marks = some ms) (hes : s.measures = some es) :
    ∃ p, measure measureName smn emn now r d s = .ok p ∧
      getDuration measureName p.1 =
        getDuration measureName s +
          (specResolvedTimestamp emn ms now -
            specResolvedTimestamp smn ms s.profilerStart) := by
  have h1 := measure_enabled measureName smn emn now r d s ms es he hms hes
  refine ⟨_, h1, ?_⟩
  obtain ⟨hAe, hAp, hAc, hAm, hAs, hAd⟩ :=
    logSlowEvent_preserves measureName
      (jsStrAndGetOr emn ms now - jsStrAndGetOr smn ms s.profilerStart) none r d
      { s with measures := some (mapSet es measureName
          (jsOrZero (mapGet es measureName) +
            (jsStrAndGetOr emn ms now - jsStrAndGetOr smn ms s.profilerStart))) }
  rw [getDuration_eq _ _ _ hAs, mapGet_mapSet_self, jsOrZero_some,
    getDuration_eq s es measureName hes]
  simp only [jsStrAndGetOr_eq_spec]

/-- Witness for the amended C3 at the concrete zero-timestamp input: the
total grows by `7 - 5`, the spec-side rule itself resolving the end to the
current time because the recorded timestamp is 0. -/
theorem c3_measure_resolution_witness :
    ∃ p, measure "m" none (some "e") 7 0 0 c3State = .ok p ∧
      getDuration "m" p.1 =
        getDuration "m" c3State +
          (specResolvedTimestamp (some "e") [("e", 0)] 7 -
            specResolvedTimestamp none [("e", 0)] c3State.profilerStart) :=
  c3_measure_resolution "m" none (some "e") 7 0 0 c3State [("e", 0)] []
    rfl rfl rfl

/-- Claim C10: `forEachMeasure` has the unstated precondition that `enable`
has run at least once: in the never-enabled initial state it dereferences the
uninitialized measures map and faults with a `TypeError`, while `getCount` and
`getDuration` guard that state and return 0; once the measures map exists
(`enable` creates it, empty), `forEachMeasure` yields the recorded
`(name, duration)` pairs even while disabled, and — the map's keys being
duplicate-free — each recorded measure name is visited exactly once. -/
theorem c10_forEachMeasure_requires_enable (s : PerfState) (es : TSMap)
    (name : String) (now : ℚ) (hes : s.measures = some es) :
    forEachMeasure initialState = .error Fault.typeError ∧
    getCount name initialState = 0 ∧
    getDuration name initialState = 0 ∧
    forEachMeasure s = .ok es ∧
    forEachMeasure (disable s) = .ok es ∧
    forEachMeasure (enable now initialState) = .ok [] ∧
    ((es.map Prod.fst).Nodup →
      ∀ nm ∈ es.map Prod.fst, (es.map Prod.fst).count nm = 1) := by
  refine ⟨rfl, rfl, rfl, ?_, ?_, rfl, ?_⟩
  · simp [forEachMeasure, hes]
  · simp [forEachMeasure, disable, hes]
  · intro hnd nm hmem
    exact List.count_eq_one_of_mem hnd hmem

/-- Witness for C10 at a state holding one recorded measure. -/
theorem c10_forEachMeasure_requires_enable_witness :
    forEachMeasure initialState = .error Fault.typeError ∧
    getCount "a" initialState = 0 ∧
    getDuration "a" initialState = 0 ∧
    forEachMeasure { initialState with measures := some [("a", 3)] } = .ok [("a", 3)] ∧
    forEachMeasure (disable { initialState with measures := some [("a", 3)] }) =
      .ok [("a", 3)] ∧
    forEachMeasure (enable 2 initialState) = .ok [] ∧
    ((([("a", (3 : ℚ))] : TSMap).map Prod.fst).Nodup →
      ∀ nm ∈ (([("a", (3 : ℚ))] : TSMap).map Prod.fst),
        (([("a", (3 : ℚ))] : TSMap).map Prod.fst).count nm = 1) :=
  c10_forEachMeasure_requires_enable
    { initialState with measures := some [("a", 3)] } [("a", 3)] "a" 2 rfl

end ts.performance
